import Mathlib

/-
Verification of the manga-generation pipeline (src/manga_generator.py).
The Python source is shallowly embedded: images are modelled as a size plus
a pixel function (pixel content of resampling is carried opaquely, since the
claims only concern geometry and compositing positions); PIL operations that
raise exceptions are modelled with Except; remote image-generation calls are
modelled by an oracle function supplied as a parameter.
-/

set_option maxRecDepth 8000

namespace MangaGen

/-- An RGB color, as used by PIL in mode "RGB". -/
structure Color where
  r : Nat
  g : Nat
  b : Nat
deriving DecidableEq, Repr

/-- The PIL color "white". -/
def white : Color := ⟨255, 255, 255⟩

/-- A raster image: pixel dimensions plus a pixel function.
Dimensions are integers because the Python code computes (possibly negative)
sizes with floor division before handing them to PIL. -/
structure Img where
  width : Int
  height : Int
  px : Int → Int → Color

/-- PIL Image.new(mode, size, color): a constant canvas. -/
def Img.new (w h : Int) (c : Color) : Img := ⟨w, h, fun _ _ => c⟩

/-- PIL Image.resize(size, resample): raises ValueError when either target
dimension is below 1 ("height and width must be > 0"); otherwise returns an
image of exactly the requested size.  The resampled pixel content is carried
opaquely (the claims under verification concern only sizes and positions). -/
def Img.resize (img : Img) (w h : Int) : Except String Img :=
  if w < 1 ∨ h < 1 then Except.error "height and width must be > 0"
  else Except.ok ⟨w, h, img.px⟩

/-- PIL Image.paste(im, box): overwrite the rectangle of size im at
position (x, y) with im's pixels; everything else is unchanged. -/
def Img.paste (base p : Img) (x y : Int) : Img :=
  ⟨base.width, base.height, fun qx qy =>
    if x ≤ qx ∧ qx < x + p.width ∧ y ≤ qy ∧ qy < y + p.height
    then p.px (qx - x) (qy - y) else base.px qx qy⟩

/-- An axis-aligned placement rectangle (position and size). -/
structure Rect where
  x : Int
  y : Int
  w : Int
  h : Int
deriving DecidableEq, Repr

/-- Two rectangles overlap when some pixel position lies strictly inside
both of them. -/
def rectOverlap (r s : Rect) : Prop :=
  ∃ p q : Int,
    (r.x ≤ p ∧ p < r.x + r.w ∧ r.y ≤ q ∧ q < r.y + r.h) ∧
    (s.x ≤ p ∧ p < s.x + s.w ∧ s.y ≤ q ∧ q < s.y + s.h)

/-- The grid row count of assemble_page: rows = (num_panels + 1) // 2. -/
def gridRows (n : Nat) : Nat := (n + 1) / 2

/-- The cell width of assemble_page: (page_width - margin * 3) // cols,
with page_width = 2480, margin = 40, cols = 2. -/
def cellW : Int := Int.fdiv (2480 - 40 * 3) 2

/-- The cell height of assemble_page:
(page_height - margin * (rows + 1)) // rows, with page_height = 3508 and
margin = 40 (Python floor division, hence Int.fdiv). -/
def cellH (n : Nat) : Int :=
  Int.fdiv (3508 - 40 * ((gridRows n : Int) + 1)) (gridRows n : Int)

/-- The x coordinate of the panel at 0-based index i:
x = margin + col * (panel_width + margin), col = i % 2. -/
def gridX (i : Nat) : Int := 40 + ((i % 2 : Nat) : Int) * (cellW + 40)

/-- The y coordinate of the panel at 0-based index i:
y = margin + row * (panel_height + margin), row = i // 2. -/
def gridY (n i : Nat) : Int := 40 + ((i / 2 : Nat) : Int) * (cellH n + 40)

/-- The placement rectangle of the panel at 0-based index i on a page of
n panels. -/
def gridRect (n i : Nat) : Rect := ⟨gridX i, gridY n i, cellW, cellH n⟩

/-- All placement rectangles of a page of n panels, in paste order. -/
def gridRects (n : Nat) : List Rect := (List.range n).map (fun i => gridRect n i)

/-- The paste loop of assemble_page ("for idx, panel_img in
enumerate(panel_images)"): resize each panel to (pw, ph), paste it at its
grid position, and record the paste rectangle.  A resize failure (PIL
ValueError) aborts the whole call, as an uncaught Python exception does. -/
def pasteLoop (margin pw ph : Int) (idx : Nat) (page : Img) :
    List Img → Except String (Img × List Rect)
  | [] => Except.ok (page, [])
  | panel_img :: rest =>
    match panel_img.resize pw ph with
    | Except.error e => Except.error e
    | Except.ok resized =>
      match pasteLoop margin pw ph (idx + 1)
          (page.paste resized (margin + ((idx % 2 : Nat) : Int) * (pw + margin))
            (margin + ((idx / 2 : Nat) : Int) * (ph + margin))) rest with
      | Except.error e => Except.error e
      | Except.ok pr =>
        Except.ok (pr.1,
          Rect.mk (margin + ((idx % 2 : Nat) : Int) * (pw + margin))
            (margin + ((idx / 2 : Nat) : Int) * (ph + margin)) pw ph :: pr.2)

/-- assemble_page (src/manga_generator.py lines 420-457): create a white
2480 x 3508 canvas; with zero panels return it unchanged; otherwise compute
the 2-column grid with margin 40 and paste each resized panel.  The result
pairs the final canvas with the list of paste rectangles, in order. -/
def assemble_page (panel_images : List Img) : Except String (Img × List Rect) :=
  let full_page := Img.new 2480 3508 white
  if panel_images.length = 0 then Except.ok (full_page, [])
  else
    let rows := gridRows panel_images.length
    let margin : Int := 40
    let panel_width : Int := Int.fdiv (2480 - margin * 3) 2
    let panel_height : Int := Int.fdiv (3508 - margin * ((rows : Int) + 1)) (rows : Int)
    pasteLoop margin panel_width panel_height 0 full_page panel_images

/-- The paste-rectangle trace of assemble_page (empty when the call fails). -/
def traceOf (l : List Img) : List Rect :=
  match assemble_page l with
  | Except.ok pr => pr.2
  | Except.error _ => []

/-- A sample panel image used to instantiate theorems. -/
def sampleImg : Img := Img.new 1 1 white

/-- GenerationMode (src/manga_generator.py lines 19-21). -/
inductive GenerationMode
  | PER_PANEL
  | PER_PAGE
deriving DecidableEq, Repr

/-- CharRefMode (src/manga_generator.py lines 24-26). -/
inductive CharRefMode
  | TEXT_ONLY
  | IMAGE_INPUT
deriving DecidableEq, Repr

/-- ColorMode (src/manga_generator.py lines 29-31). -/
inductive ColorMode
  | MONOCHROME
  | COLOR
deriving DecidableEq, Repr

/-- MangaConfig (src/manga_generator.py lines 34-39). -/
structure MangaConfig where
  generation_mode : GenerationMode
  char_ref_mode : CharRefMode
  color_mode : ColorMode
deriving DecidableEq, Repr

/-- A planned character: name and visual_desc. -/
structure Character where
  name : String
  visual_desc : String
deriving DecidableEq, Repr

/-- A planned panel.  The dialogue field is optional; an absent or empty
dialogue string is falsy for the Python expression panel.get("dialogue"). -/
structure Panel where
  id : Int
  description : String
  visual_prompt : String
  dialogue : Option String
deriving DecidableEq, Repr

/-- A planned page. -/
structure Page where
  page_number : Int
  layout_desc : String
  panels : List Panel
deriving DecidableEq, Repr

/-- A plan: the JSON structure produced by plan_manga. -/
structure Plan where
  characters : List Character
  pages : List Page
deriving DecidableEq, Repr

/-- The remote image-generation adapter generate_image
(src/manga_generator.py lines 271-332): given the prompt and the list of
reference images it returns the first image of the response, or none on
failure.  It is a parameter of the pipeline model, since the call is
remote I/O. -/
abbrev Gen := String → List Img → Option Img

/-- The style suffix appended by generate_panel_image
(src/manga_generator.py lines 342-345). -/
def style_suffix : ColorMode → String
  | ColorMode.COLOR =>
      ", manga style, vibrant colors, anime art style, professional manga artwork, colorful illustration"
  | ColorMode.MONOCHROME =>
      ", manga style, monochrome, black and white, screentones, ink lines, high contrast, anime art style, professional manga artwork"

/-- The full prompt of generate_panel_image (src/manga_generator.py line
347): the panel's visual_prompt plus the style suffix. -/
def panel_full_prompt (panel : Panel) (mode : ColorMode) : String :=
  panel.visual_prompt ++ style_suffix mode

/-- generate_panel_image (src/manga_generator.py lines 335-367): sends the
panel prompt and, in IMAGE_INPUT mode with a non-empty reference set, all
character reference images, to the image-generation oracle.  The second
component returns the panel as the function leaves it (the source never
writes to the panel dict). -/
def generate_panel_image (panel : Panel) (character_refs : List (String × Img))
    (config : MangaConfig) (gen : Gen) : Option Img × Panel :=
  let ref_images :=
    if config.char_ref_mode = CharRefMode.IMAGE_INPUT ∧ character_refs.isEmpty = false
    then character_refs.map Prod.snd else []
  (gen (panel_full_prompt panel config.color_mode) ref_images, panel)

/-- One panel description line of generate_page_image
(src/manga_generator.py lines 377-381): "Panel k: visual_prompt", with
" (Dialogue: ...)" appended exactly when the dialogue field is present and
non-empty. -/
def page_panel_desc (k : Nat) (panel : Panel) : String :=
  match panel.dialogue with
  | some dlg =>
      if dlg = "" then "Panel " ++ toString k ++ ": " ++ panel.visual_prompt
      else "Panel " ++ toString k ++ ": " ++ panel.visual_prompt ++
        " (Dialogue: " ++ dlg ++ ")"
  | none => "Panel " ++ toString k ++ ": " ++ panel.visual_prompt

/-- Python's " ".join. -/
def joinSpace : List String → String
  | [] => ""
  | [s] => s
  | s :: rest => s ++ " " ++ joinSpace rest

/-- The fixed head of the page prompt (src/manga_generator.py lines
384-395), by color mode. -/
def page_prompt_head : ColorMode → String
  | ColorMode.COLOR =>
      "Full manga page, vibrant colors, high quality professional manga. "
  | ColorMode.MONOCHROME =>
      "Full manga page, black and white, high quality professional manga. "

/-- The fixed tail of the page prompt (src/manga_generator.py lines
384-395), by color mode. -/
def page_prompt_tail : ColorMode → String
  | ColorMode.COLOR =>
      "Manga style, colorful illustration, anime art style, panel borders clearly visible"
  | ColorMode.MONOCHROME =>
      "Manga style, monochrome, screentones, ink lines, high contrast, anime art style, panel borders clearly visible"

/-- The full prompt of generate_page_image (src/manga_generator.py lines
373-395): the layout_desc and the numbered panel descriptions joined into
one page-level directive with the color-mode framing. -/
def page_full_prompt (page : Page) (mode : ColorMode) : String :=
  page_prompt_head mode ++ "Page layout: " ++ page.layout_desc ++ ". " ++
    joinSpace (page.panels.enum.map (fun ip => page_panel_desc (ip.1 + 1) ip.2)) ++
    ". " ++ page_prompt_tail mode

/-- generate_page_image (src/manga_generator.py lines 370-415).  The second
component returns the page as the function leaves it (the source never
writes to the page dict). -/
def generate_page_image (page : Page) (character_refs : List (String × Img))
    (config : MangaConfig) (gen : Gen) : Option Img × Page :=
  let ref_images :=
    if config.char_ref_mode = CharRefMode.IMAGE_INPUT ∧ character_refs.isEmpty = false
    then character_refs.map Prod.snd else []
  (gen (page_full_prompt page config.color_mode) ref_images, page)

/-- The character-sheet prompt of generate_character_sheets
(src/manga_generator.py lines 231-233). -/
def char_sheet_prompt (name visual_desc : String) : String :=
  "Character reference sheet, multiple views, " ++ name ++ ", " ++ visual_desc ++
    ", manga style, character design, turnaround, white background, professional anime character sheet, detailed line art"

/-- The per-character loop of generate_character_sheets
(src/manga_generator.py lines 226-246): one image-generation call per
character, with no reference images; on success the name-to-image entry is
added, on failure the character is skipped. -/
def charSheetLoop (gen : Gen) : List Character → List (String × Img)
  | [] => []
  | c :: rest =>
    match gen (char_sheet_prompt c.name c.visual_desc) [] with
    | some img => (c.name, img) :: charSheetLoop gen rest
    | none => charSheetLoop gen rest

/-- generate_character_sheets (src/manga_generator.py lines 215-247):
returns the empty reference map in TEXT_ONLY mode, otherwise one entry per
successfully generated character sheet.  The second component returns the
characters list as the function leaves it (the source never writes to the
character dicts). -/
def generate_character_sheets (characters : List Character) (config : MangaConfig)
    (gen : Gen) : List (String × Img) × List Character :=
  if config.char_ref_mode = CharRefMode.TEXT_ONLY then ([], characters)
  else (charSheetLoop gen characters, characters)

/-- The PER_PANEL page loop of generate_manga (src/manga_generator.py lines
560-583), expressed on the per-panel render outcomes of each page: collect
each page's successful panel images in order, skip the page entirely when
none succeeded, else assemble them; an assembly exception (PIL ValueError)
propagates and aborts the run, as an uncaught Python exception does. -/
def panelFirstLoop : List (List (Option Img)) → Except String (List Img)
  | [] => Except.ok []
  | panels :: rest =>
    if (panels.filterMap id).isEmpty then panelFirstLoop rest
    else
      match assemble_page (panels.filterMap id) with
      | Except.error e => Except.error e
      | Except.ok page_img =>
        match panelFirstLoop rest with
        | Except.error e => Except.error e
        | Except.ok page_images => Except.ok (page_img.1 :: page_images)

/-- The page-generation stage of generate_manga (src/manga_generator.py
lines 541-583): PER_PAGE keeps each successfully generated page image;
PER_PANEL renders each panel of each page and runs the panel-first loop. -/
def pagesStage (pages : List Page) (character_refs : List (String × Img))
    (config : MangaConfig) (gen : Gen) : Except String (List Img) :=
  match config.generation_mode with
  | GenerationMode.PER_PAGE =>
      Except.ok (pages.filterMap
        (fun pg => (generate_page_image pg character_refs config gen).1))
  | GenerationMode.PER_PANEL =>
      panelFirstLoop (pages.map (fun pg =>
        pg.panels.map (fun p => (generate_panel_image p character_refs config gen).1)))

/-- The character-sheet prompts generate_manga sends, in order: one per
character when the reference strategy is image-based, none otherwise. -/
def sheet_calls (characters : List Character) (config : MangaConfig) : List String :=
  if config.char_ref_mode = CharRefMode.TEXT_ONLY then []
  else characters.map (fun c => char_sheet_prompt c.name c.visual_desc)

/-- The artwork prompts generate_manga sends, in order: one per page in
PER_PAGE mode, one per panel of each page in PER_PANEL mode. -/
def render_calls (pages : List Page) (config : MangaConfig) : List String :=
  match config.generation_mode with
  | GenerationMode.PER_PAGE =>
      pages.map (fun pg => page_full_prompt pg config.color_mode)
  | GenerationMode.PER_PANEL =>
      (pages.map (fun pg =>
        pg.panels.map (fun p => panel_full_prompt p config.color_mode))).flatten

/-- save_to_pdf (src/manga_generator.py lines 460-485): produces a PDF
document exactly when the page list is non-empty. -/
def save_to_pdf (page_images : List Img) : Bool :=
  !page_images.isEmpty

/-- The observable outcome of one generate_manga run: whether the plan was
saved, the character reference map, the image-generation prompts sent, the
finished page images, and whether export ran and produced a document. -/
structure RunTrace where
  plan_saved : Bool
  character_refs : List (String × Img)
  image_calls : List String
  page_images : List Img
  export_called : Bool
  pdf_saved : Bool

/-- generate_manga (src/manga_generator.py lines 490-594): aborts before
any image work when the planner returned no plan; otherwise generates
character sheets, then pages, then calls save_to_pdf.  The planner outcome
and the image oracle are parameters, since both are remote I/O. -/
def generate_manga (planResult : Option Plan) (config : MangaConfig) (gen : Gen) :
    Except String RunTrace :=
  match planResult with
  | none => Except.ok ⟨false, [], [], [], false, false⟩
  | some plan =>
    let character_refs := (generate_character_sheets plan.characters config gen).1
    match pagesStage plan.pages character_refs config gen with
    | Except.error e => Except.error e
    | Except.ok page_images =>
      Except.ok ⟨true, character_refs,
        sheet_calls plan.characters config ++ render_calls plan.pages config,
        page_images, true, save_to_pdf page_images⟩

/-- pat occurs as a contiguous segment of s. -/
def strSub (pat s : String) : Prop := ∃ u v, u ++ (pat ++ v) = s

/-- An image oracle that always succeeds, for instantiating theorems. -/
def genAll : Gen := fun _ _ => some sampleImg

/-- A config with image-based character references, for instantiating
theorems. -/
def cfgImage : MangaConfig :=
  ⟨GenerationMode.PER_PANEL, CharRefMode.IMAGE_INPUT, ColorMode.MONOCHROME⟩

/-- An image oracle that fails exactly on the sheet prompt of the character
named "C" with description "c", for instantiating theorems. -/
def genFailC : Gen := fun prompt _ =>
  if prompt = char_sheet_prompt "C" "c" then none else some sampleImg

theorem cellW_eq : cellW = 1180 := by decide

theorem pasteLoop_ok (margin pw ph : Int) (hw : 1 ≤ pw) (hh : 1 ≤ ph) :
    ∀ (l : List Img) (idx : Nat) (page : Img),
      ∃ pg, pasteLoop margin pw ph idx page l =
        Except.ok (pg, (List.range l.length).map (fun k =>
          Rect.mk (margin + (((idx + k) % 2 : Nat) : Int) * (pw + margin))
            (margin + (((idx + k) / 2 : Nat) : Int) * (ph + margin)) pw ph)) := by
  intro l
  induction l with
  | nil => intro idx page; exact ⟨page, rfl⟩
  | cons a t ih =>
    intro idx page
    have hres : a.resize pw ph = Except.ok ⟨pw, ph, a.px⟩ := by
      unfold Img.resize
      rw [if_neg]
      omega
    obtain ⟨pg, hpg⟩ := ih (idx + 1)
      (page.paste ⟨pw, ph, a.px⟩ (margin + ((idx % 2 : Nat) : Int) * (pw + margin))
        (margin + ((idx / 2 : Nat) : Int) * (ph + margin)))
    refine ⟨pg, ?_⟩
    simp only [pasteLoop, hres, hpg]
    have harith : ∀ k : Nat, idx + 1 + k = idx + (k + 1) := fun k => by omega
    simp only [harith, List.length_cons, List.range_succ_eq_map, List.map_cons,
      List.map_map, Function.comp_def, Nat.succ_eq_add_one, Nat.add_zero]

theorem pasteLoop_err (margin pw ph : Int) (hph : ph < 1) (a : Img) (t : List Img)
    (idx : Nat) (page : Img) :
    pasteLoop margin pw ph idx page (a :: t) =
      Except.error "height and width must be > 0" := by
  have hres : a.resize pw ph = Except.error "height and width must be > 0" := by
    unfold Img.resize
    rw [if_pos]
    right; exact hph
  simp only [pasteLoop, hres]

theorem assemble_page_eq_loop (imgs : List Img) (hne : imgs ≠ []) :
    assemble_page imgs =
      pasteLoop 40 cellW (cellH imgs.length) 0 (Img.new 2480 3508 white) imgs := by
  unfold assemble_page
  rw [if_neg]
  · rfl
  · simpa using hne

theorem assemble_page_ok (imgs : List Img) (hne : imgs ≠ [])
    (hpos : 1 ≤ cellH imgs.length) :
    ∃ pg, assemble_page imgs = Except.ok (pg, gridRects imgs.length) := by
  obtain ⟨pg, hpg⟩ := pasteLoop_ok 40 cellW (cellH imgs.length) (by decide) hpos imgs 0
    (Img.new 2480 3508 white)
  refine ⟨pg, ?_⟩
  rw [assemble_page_eq_loop imgs hne, hpg]
  simp only [gridRects, gridRect, gridX, gridY, Nat.zero_add]

theorem assemble_page_err (imgs : List Img) (hne : imgs ≠ [])
    (hneg : cellH imgs.length < 1) :
    assemble_page imgs = Except.error "height and width must be > 0" := by
  obtain ⟨a, t, rfl⟩ := List.exists_cons_of_ne_nil hne
  rw [assemble_page_eq_loop _ (by simp)]
  exact pasteLoop_err _ _ _ hneg _ _ _ _

theorem cellH_pos_iff (n : Nat) (hn : 1 ≤ n) : 1 ≤ cellH n ↔ gridRows n ≤ 84 := by
  have hr : 1 ≤ gridRows n := by
    unfold gridRows
    omega
  have hr0 : (0 : Int) < (gridRows n : Int) := by exact_mod_cast hr
  unfold cellH
  rw [Int.fdiv_eq_ediv _ (le_of_lt hr0), Int.le_ediv_iff_mul_le hr0]
  omega

theorem grid_no_overlap (n i j : Nat) (hpos : 1 ≤ cellH n) (hij : i ≠ j) :
    ¬ rectOverlap (gridRect n i) (gridRect n j) := by
  rintro ⟨p, q, ⟨hx1, hx2, hy1, hy2⟩, hx1', hx2', hy1', hy2'⟩
  simp only [gridRect, gridX, gridY, cellW_eq] at hx1 hx2 hy1 hy2 hx1' hx2' hy1' hy2'
  by_cases hrow : i / 2 = j / 2
  · have hcol : i % 2 ≠ j % 2 := by omega
    have hi2 : i % 2 = 0 ∨ i % 2 = 1 := by omega
    have hj2 : j % 2 = 0 ∨ j % 2 = 1 := by omega
    rcases hi2 with h1 | h1 <;> rcases hj2 with h2 | h2 <;>
      rw [h1] at hx1 hx2 <;> rw [h2] at hx1' hx2' <;>
      simp only [Nat.cast_zero, Nat.cast_one, zero_mul, one_mul] at hx1 hx2 hx1' hx2' <;>
      omega
  · rcases Nat.lt_or_ge (i / 2) (j / 2) with hlt | hge
    · have hab : ((i / 2 : Nat) : Int) + 1 ≤ ((j / 2 : Nat) : Int) := by exact_mod_cast hlt
      have h1 : (((i / 2 : Nat) : Int) + 1) * (cellH n + 40) ≤
          ((j / 2 : Nat) : Int) * (cellH n + 40) :=
        mul_le_mul_of_nonneg_right hab (by linarith)
      rw [add_mul, one_mul] at h1
      linarith
    · have hlt' : j / 2 < i / 2 := by omega
      have hab : ((j / 2 : Nat) : Int) + 1 ≤ ((i / 2 : Nat) : Int) := by exact_mod_cast hlt'
      have h1 : (((j / 2 : Nat) : Int) + 1) * (cellH n + 40) ≤
          ((i / 2 : Nat) : Int) * (cellH n + 40) :=
        mul_le_mul_of_nonneg_right hab (by linarith)
      rw [add_mul, one_mul] at h1
      linarith

theorem grid_in_canvas (n i : Nat) (_hn : 1 ≤ n) (hi : i < n) (hpos : 1 ≤ cellH n) :
    0 ≤ gridX i ∧ 0 ≤ gridY n i ∧ gridX i + cellW ≤ 2480 ∧
      gridY n i + cellH n ≤ 3508 := by
  have hr : 1 ≤ gridRows n := by
    unfold gridRows
    omega
  have hr0 : (0 : Int) < (gridRows n : Int) := by exact_mod_cast hr
  have hfd : cellH n * (gridRows n : Int) ≤ 3508 - 40 * ((gridRows n : Int) + 1) := by
    unfold cellH
    rw [Int.fdiv_eq_ediv _ (le_of_lt hr0)]
    exact Int.ediv_mul_le _ (by omega)
  have hi2 : i % 2 = 0 ∨ i % 2 = 1 := by omega
  have hrow : i / 2 + 1 ≤ gridRows n := by
    unfold gridRows
    omega
  have hri : ((i / 2 : Nat) : Int) ≤ (gridRows n : Int) - 1 := by
    have : ((i / 2 : Nat) : Int) + 1 ≤ (gridRows n : Int) := by exact_mod_cast hrow
    omega
  have hy1 : ((i / 2 : Nat) : Int) * (cellH n + 40) ≤
      ((gridRows n : Int) - 1) * (cellH n + 40) :=
    mul_le_mul_of_nonneg_right hri (by linarith)
  rw [sub_mul, one_mul] at hy1
  have hy0 : 0 ≤ ((i / 2 : Nat) : Int) * (cellH n + 40) :=
    mul_nonneg (by exact_mod_cast Nat.zero_le _) (by linarith)
  have hV : (gridRows n : Int) * (cellH n + 40) =
      cellH n * (gridRows n : Int) + 40 * (gridRows n : Int) := by ring
  refine ⟨?_, ?_, ?_, ?_⟩
  · unfold gridX
    rw [cellW_eq]
    rcases hi2 with h | h <;> rw [h] <;> simp
  · unfold gridY
    omega
  · unfold gridX
    rw [cellW_eq]
    rcases hi2 with h | h <;> rw [h] <;>
      simp only [Nat.cast_zero, Nat.cast_one, zero_mul, one_mul] <;> omega
  · unfold gridY
    omega

/-- C1 (amended: restricted to panel counts whose computed cell height is
positive, i.e. 1 to 168 panels; at 169 panels the code raises instead):
assemble_page succeeds and pastes the panel at 0-based index i at grid row
i / 2 and column i % 2, at pixel position
(40 + col * (cellW + 40), 40 + row * (cellH + 40)) on the 2480x3508 canvas,
and no two placed panel rectangles overlap. -/
theorem assemble_page_grid_placement (imgs : List Img) (hne : imgs ≠ [])
    (hpos : 1 ≤ cellH imgs.length) :
    (∃ pg, assemble_page imgs = Except.ok (pg, gridRects imgs.length)) ∧
    (∀ i, i < imgs.length →
      gridRect imgs.length i =
        Rect.mk (40 + ((i % 2 : Nat) : Int) * (cellW + 40))
          (40 + ((i / 2 : Nat) : Int) * (cellH imgs.length + 40))
          cellW (cellH imgs.length)) ∧
    (∀ i j, i < imgs.length → j < imgs.length → i ≠ j →
      ¬ rectOverlap (gridRect imgs.length i) (gridRect imgs.length j)) :=
  ⟨assemble_page_ok imgs hne hpos, fun _ _ => rfl,
    fun i j _ _ hij => grid_no_overlap imgs.length i j hpos hij⟩

/-- C1 counterexample: at 169 panels the computed cell height is
(3508 - 40 * 86) // 85 = 0, the PIL resize raises ValueError, and
assemble_page places no panel at all, so the claim fails for that N. -/
theorem assemble_page_crash_at_169 :
    assemble_page (List.replicate 169 sampleImg) =
        Except.error "height and width must be > 0" ∧
      cellH 169 = 0 := by
  constructor
  · apply assemble_page_err
    · simp
    · simp only [List.length_replicate]
      decide
  · decide

/-- C1 witness: a concrete 3-panel page assembles onto the grid and its
first two cells do not overlap. -/
theorem assemble_page_grid_placement_inst :
    (∃ pg, assemble_page [sampleImg, sampleImg, sampleImg] =
      Except.ok (pg, gridRects 3)) ∧
    ¬ rectOverlap (gridRect 3 0) (gridRect 3 1) := by
  have h := assemble_page_grid_placement [sampleImg, sampleImg, sampleImg]
    (by simp) (by decide)
  exact ⟨h.1, h.2.2 0 1 (by decide) (by decide) (by decide)⟩

/-- C2 counterexample: with 9 panels (5 rows) the code computes cell height
653 by floor division, but (3508 - 40 * (5 + 1)) / 5 = 653.6 exactly, so the
computed cell height does not equal the exact quotient. -/
theorem assemble_page_cell_height_not_exact :
    (traceOf (List.replicate 9 sampleImg)).map Rect.h =
        List.replicate 9 (653 : Int) ∧
      ((653 : ℚ) ≠ ((3508 : ℚ) - 40 * ((gridRows 9 : ℚ) + 1)) / (gridRows 9 : ℚ)) := by
  constructor
  · decide
  · have h5 : gridRows 9 = 5 := rfl
    rw [h5]
    norm_num

/-- C2 (amended: the cell width equals the exact quotient
(2480 - 40 * 3) / 2 = 1180, but the cell height is the FLOOR of
(3508 - 40 * (R + 1)) / R, which is not the exact quotient in general,
e.g. for 9 panels; each panel is resampled to exactly that cell size,
provided the computed cell height is positive): every paste rectangle of
assemble_page has width cellW and height cellH. -/
theorem assemble_page_cell_dimensions (imgs : List Img) (hne : imgs ≠ [])
    (hpos : 1 ≤ cellH imgs.length) :
    (∃ pg, assemble_page imgs = Except.ok (pg, gridRects imgs.length)) ∧
    (∀ r ∈ gridRects imgs.length, r.w = cellW ∧ r.h = cellH imgs.length) ∧
    ((cellW : ℚ) = ((2480 : ℚ) - 40 * (2 + 1)) / 2) ∧
    (cellH imgs.length =
      Int.fdiv (3508 - 40 * ((gridRows imgs.length : Int) + 1))
        (gridRows imgs.length : Int)) := by
  refine ⟨assemble_page_ok imgs hne hpos, ?_, ?_, rfl⟩
  · intro r hr
    obtain ⟨i, hi, rfl⟩ := List.mem_map.1 hr
    constructor <;> simp only [gridRect]
  · rw [cellW_eq]
    norm_num

/-- C2 witness: a concrete 2-panel page, whose single row has cell height
(3508 - 40 * 2) // 1 = 3428 and cell width 1180. -/
theorem assemble_page_cell_dimensions_inst :
    (∃ pg, assemble_page [sampleImg, sampleImg] = Except.ok (pg, gridRects 2)) ∧
    ((gridRect 2 0).w = cellW ∧ (gridRect 2 0).h = cellH 2) := by
  have h := assemble_page_cell_dimensions [sampleImg, sampleImg] (by simp) (by decide)
  exact ⟨h.1, h.2.1 (gridRect 2 0) (by decide)⟩

/-- C9: assembling the empty list of panel images returns, without error,
a canvas of exactly 2480x3508 pixels that is solid white everywhere. -/
theorem assemble_page_empty_white :
    ∃ pg, assemble_page [] = Except.ok (pg, []) ∧
      pg.width = 2480 ∧ pg.height = 3508 ∧ ∀ x y : Int, pg.px x y = white :=
  ⟨Img.new 2480 3508 white, rfl, rfl, rfl, fun _ _ => rfl⟩

/-- C10: for every non-empty list of panel images with positive computed
cell height, every placement rectangle produced by assemble_page lies
entirely within the 2480x3508 canvas. -/
theorem assemble_page_within_canvas (imgs : List Img) (hne : imgs ≠ [])
    (hpos : 1 ≤ cellH imgs.length) :
    (∃ pg, assemble_page imgs = Except.ok (pg, gridRects imgs.length)) ∧
    ∀ r ∈ gridRects imgs.length,
      0 ≤ r.x ∧ 0 ≤ r.y ∧ r.x + r.w ≤ 2480 ∧ r.y + r.h ≤ 3508 := by
  refine ⟨assemble_page_ok imgs hne hpos, ?_⟩
  intro r hr
  obtain ⟨i, hi, rfl⟩ := List.mem_map.1 hr
  have hn : 1 ≤ imgs.length := List.length_pos.2 hne
  simp only [gridRect]
  exact grid_in_canvas imgs.length i hn (List.mem_range.1 hi) hpos

theorem panelFirstLoop_append (xs ys : List (List (Option Img))) :
    panelFirstLoop (xs ++ ys) =
      match panelFirstLoop xs with
      | Except.error e => Except.error e
      | Except.ok u =>
        match panelFirstLoop ys with
        | Except.error e => Except.error e
        | Except.ok v => Except.ok (u ++ v) := by
  induction xs with
  | nil =>
    simp only [List.nil_append, panelFirstLoop]
    cases panelFirstLoop ys <;> simp
  | cons p xs ih =>
    simp only [List.cons_append, panelFirstLoop, List.append_eq]
    by_cases hp : (p.filterMap id).isEmpty
    · rw [if_pos hp, if_pos hp]
      exact ih
    · rw [if_neg hp, if_neg hp, ih]
      cases assemble_page (p.filterMap id) with
      | error e => rfl
      | ok page_img =>
        cases panelFirstLoop xs with
        | error e => rfl
        | ok u =>
          cases panelFirstLoop ys with
          | error e => rfl
          | ok v => rfl

theorem panelFirstLoop_single (ps : List (Option Img)) :
    panelFirstLoop [ps] =
      if (ps.filterMap id).isEmpty then Except.ok []
      else
        match assemble_page (ps.filterMap id) with
        | Except.error e => Except.error e
        | Except.ok page_img => Except.ok [page_img.1] := by
  simp only [panelFirstLoop]

theorem panelFirstLoop_skip (b' a' : List (List (Option Img)))
    (ps : List (Option Img)) (h : ∀ x ∈ ps, x = none) :
    panelFirstLoop (b' ++ ps :: a') = panelFirstLoop (b' ++ a') := by
  have hemp : (ps.filterMap id).isEmpty = true := by
    rw [List.isEmpty_iff, List.filterMap_eq_nil_iff]
    exact h
  induction b' with
  | nil =>
    simp only [List.nil_append]
    conv_lhs => rw [panelFirstLoop]
    rw [hemp]
    simp
  | cons p b' ih =>
    simp only [List.cons_append, panelFirstLoop, List.append_eq]
    by_cases hp : (p.filterMap id).isEmpty
    · rw [if_pos hp, if_pos hp]
      exact ih
    · rw [if_neg hp, if_neg hp]
      cases assemble_page (p.filterMap id) with
      | error e => rfl
      | ok page_img => rw [ih]

theorem assemble_page_isOk (l : List Img) :
    (∃ pr, assemble_page l = Except.ok pr) ↔ (l = [] ∨ 1 ≤ cellH l.length) := by
  constructor
  · rintro ⟨pr, hpr⟩
    by_cases h : l = []
    · exact Or.inl h
    · right
      by_contra hlt
      rw [assemble_page_err l h (by omega)] at hpr
      exact absurd hpr (by simp)
  · rintro (rfl | hpos)
    · exact ⟨(Img.new 2480 3508 white, []), rfl⟩
    · by_cases h : l = []
      · subst h
        exact ⟨(Img.new 2480 3508 white, []), rfl⟩
      · obtain ⟨pg, hpg⟩ := assemble_page_ok l h hpos
        exact ⟨(pg, gridRects l.length), hpg⟩

theorem cellH_pos_of_le (m n : Nat) (hm : 1 ≤ m) (hmn : m ≤ n)
    (h : 1 ≤ cellH n) : 1 ≤ cellH m := by
  rw [cellH_pos_iff m hm]
  rw [cellH_pos_iff n (le_trans hm hmn)] at h
  unfold gridRows at h ⊢
  omega

/-- C4: if the planner produces no plan, generate_manga aborts immediately:
the plan is not saved, no character sheet is generated, no image-generation
prompt is sent, no page image is produced, and export is never called. -/
theorem generate_manga_aborts_without_plan (config : MangaConfig) (gen : Gen) :
    generate_manga none config gen =
      Except.ok ⟨false, [], [], [], false, false⟩ := rfl

/-- C3: in panel-first mode, whenever the run in which a given panel render
succeeds (with image img) completes, the run in which that one panel fails
instead also completes; the failure excludes exactly that panel from its
page's assembly input, the contributions of all other pages are unchanged,
and a page all of whose panels fail contributes no entry at all to the
final page sequence. -/
theorem panel_failure_isolated (b a : List (List (Option Img)))
    (ps1 ps2 : List (Option Img)) (img : Img)
    (h : (panelFirstLoop (b ++ (ps1 ++ some img :: ps2) :: a)).isOk = true) :
    ∃ ib ia entry entry',
      panelFirstLoop b = Except.ok ib ∧
      panelFirstLoop a = Except.ok ia ∧
      panelFirstLoop [ps1 ++ some img :: ps2] = Except.ok entry ∧
      panelFirstLoop [ps1 ++ none :: ps2] = Except.ok entry' ∧
      panelFirstLoop (b ++ (ps1 ++ some img :: ps2) :: a) =
        Except.ok (ib ++ entry ++ ia) ∧
      panelFirstLoop (b ++ (ps1 ++ none :: ps2) :: a) =
        Except.ok (ib ++ entry' ++ ia) ∧
      (ps1 ++ none :: ps2).filterMap id = (ps1 ++ ps2).filterMap id ∧
      (∀ b' a' (ps : List (Option Img)), (∀ x ∈ ps, x = none) →
        panelFirstLoop (b' ++ ps :: a') = panelFirstLoop (b' ++ a')) := by
  have hmid : (b ++ (ps1 ++ some img :: ps2) :: a) =
      b ++ ([ps1 ++ some img :: ps2] ++ a) := by simp
  have hmid' : (b ++ (ps1 ++ none :: ps2) :: a) =
      b ++ ([ps1 ++ none :: ps2] ++ a) := by simp
  rw [hmid, panelFirstLoop_append b, panelFirstLoop_append] at h
  obtain ⟨ib, hib⟩ : ∃ ib, panelFirstLoop b = Except.ok ib := by
    cases hb : panelFirstLoop b with
    | error e => rw [hb] at h; simp [Except.isOk, Except.toBool] at h
    | ok u => exact ⟨u, rfl⟩
  rw [hib] at h
  obtain ⟨entry, hentry⟩ :
      ∃ entry, panelFirstLoop [ps1 ++ some img :: ps2] = Except.ok entry := by
    cases hm : panelFirstLoop [ps1 ++ some img :: ps2] with
    | error e => rw [hm] at h; simp [Except.isOk, Except.toBool] at h
    | ok u => exact ⟨u, rfl⟩
  rw [hentry] at h
  obtain ⟨ia, hia⟩ : ∃ ia, panelFirstLoop a = Except.ok ia := by
    cases ha : panelFirstLoop a with
    | error e => rw [ha] at h; simp [Except.isOk, Except.toBool] at h
    | ok u => exact ⟨u, rfl⟩
  rw [hia] at h
  have hfm : (ps1 ++ some img :: ps2).filterMap id =
      ps1.filterMap id ++ img :: ps2.filterMap id := by simp
  have hfm' : (ps1 ++ none :: ps2).filterMap id = (ps1 ++ ps2).filterMap id := by
    simp
  obtain ⟨entry', hentry'⟩ :
      ∃ entry', panelFirstLoop [ps1 ++ none :: ps2] = Except.ok entry' := by
    rw [panelFirstLoop_single, hfm']
    by_cases hemp : ((ps1 ++ ps2).filterMap id).isEmpty
    · rw [if_pos hemp]
      exact ⟨[], rfl⟩
    · rw [if_neg hemp]
      have hok : ∃ pr, assemble_page ((ps1 ++ ps2).filterMap id) = Except.ok pr := by
        rw [assemble_page_isOk]
        right
        have hokS : ∃ pr, assemble_page ((ps1 ++ some img :: ps2).filterMap id) =
            Except.ok pr := by
          rw [panelFirstLoop_single, hfm] at hentry
          rw [if_neg (by simp)] at hentry
          cases hass : assemble_page (ps1.filterMap id ++ img :: ps2.filterMap id) with
          | error e => rw [hass] at hentry; simp at hentry
          | ok pr => exact ⟨pr, by rw [hfm]; exact hass⟩
        obtain ⟨pr, hpr⟩ := hokS
        have hS : 1 ≤ cellH ((ps1 ++ some img :: ps2).filterMap id).length := by
          rcases (assemble_page_isOk _).1 ⟨pr, hpr⟩ with hnil | hpos
          · rw [hfm] at hnil; simp at hnil
          · exact hpos
        have hlen : ((ps1 ++ ps2).filterMap id).length ≤
            ((ps1 ++ some img :: ps2).filterMap id).length := by
          rw [hfm]
          simp
        have hge1 : 1 ≤ ((ps1 ++ ps2).filterMap id).length := by
          have : (ps1 ++ ps2).filterMap id ≠ [] := by
            intro hnil
            rw [List.isEmpty_iff] at hemp
            exact hemp hnil
          exact List.length_pos.2 this
        exact cellH_pos_of_le _ _ hge1 hlen hS
      obtain ⟨pr, hpr⟩ := hok
      rw [hpr]
      exact ⟨[pr.1], rfl⟩
  refine ⟨ib, ia, entry, entry', hib, hia, hentry, hentry', ?_, ?_, hfm',
    panelFirstLoop_skip⟩
  · rw [hmid, panelFirstLoop_append b, panelFirstLoop_append, hib, hentry, hia]
    simp
  · rw [hmid', panelFirstLoop_append b, panelFirstLoop_append, hib, hentry', hia]
    simp

/-- C3 witness: a concrete three-page run in which the middle page's second
panel fails; the run still completes. -/
theorem panel_failure_isolated_inst :
    (panelFirstLoop [[some sampleImg], [some sampleImg, none, some sampleImg],
      [some sampleImg]]).isOk = true := by
  obtain ⟨ib, ia, entry, entry', h1, h2, h3, h4, h5, h6, h7, h8⟩ :=
    panel_failure_isolated [[some sampleImg]] [[some sampleImg]]
      [some sampleImg] [some sampleImg] sampleImg (by rfl)
  simp only [List.cons_append, List.nil_append] at h6
  rw [h6]
  rfl

/-- C10 witness: a concrete 5-panel page; its last cell lies within the
canvas. -/
theorem assemble_page_within_canvas_inst :
    (∃ pg, assemble_page [sampleImg, sampleImg, sampleImg, sampleImg, sampleImg] =
      Except.ok (pg, gridRects 5)) ∧
    (0 ≤ (gridRect 5 4).x ∧ 0 ≤ (gridRect 5 4).y ∧
      (gridRect 5 4).x + (gridRect 5 4).w ≤ 2480 ∧
      (gridRect 5 4).y + (gridRect 5 4).h ≤ 3508) := by
  have h := assemble_page_within_canvas
    [sampleImg, sampleImg, sampleImg, sampleImg, sampleImg] (by simp) (by decide)
  exact ⟨h.1, h.2 (gridRect 5 4) (by decide)⟩

theorem strSub_trans {a b c : String} (h1 : strSub a b) (h2 : strSub b c) :
    strSub a c := by
  obtain ⟨u1, v1, rfl⟩ := h1
  obtain ⟨u2, v2, rfl⟩ := h2
  exact ⟨u2 ++ u1, v1 ++ v2, by simp [String.append_assoc]⟩

theorem strSub_joinSpace : ∀ (L : List String) (s : String), s ∈ L →
    strSub s (joinSpace L)
  | [], s, h => absurd h (List.not_mem_nil s)
  | [t], s, h => by
    have hst : s = t := by simpa using h
    subst hst
    exact ⟨"", "", by simp [joinSpace]⟩
  | t :: t' :: rest, s, h => by
    rcases List.mem_cons.1 h with rfl | h'
    · exact ⟨"", " " ++ joinSpace (t' :: rest),
        by show _ = s ++ " " ++ joinSpace (t' :: rest); simp [String.append_assoc]⟩
    · obtain ⟨u, v, huv⟩ := strSub_joinSpace (t' :: rest) s h'
      refine ⟨t ++ " " ++ u, v, ?_⟩
      show _ = t ++ " " ++ joinSpace (t' :: rest)
      rw [← huv]
      simp [String.append_assoc]

theorem mem_enumFrom {α : Type} : ∀ (l : List α) (n k : Nat) (hk : k < l.length),
    (n + k, l.get ⟨k, hk⟩) ∈ l.enumFrom n
  | [], _, k, hk => absurd hk (by simp)
  | a :: t, n, 0, _ => by simp [List.enumFrom]
  | a :: t, n, k + 1, hk => by
    have ih := mem_enumFrom t (n + 1) k (by simpa using hk)
    have harith : n + (k + 1) = (n + 1) + k := by omega
    rw [harith]
    simp only [List.enumFrom, List.get]
    exact List.mem_cons_of_mem _ ih

/-- C5: the page-first prompt includes the page's layout_desc; for every
panel, taken in order with 1-based position k, it includes the panel line
of that panel, which is "Panel k: visual_prompt" with the dialogue appended
in parentheses exactly when the dialogue field is present and non-empty;
and it includes the color-mode style framing. -/
theorem page_prompt_composition (page : Page) (mode : ColorMode) :
    strSub page.layout_desc (page_full_prompt page mode) ∧
    (∀ k (hk : k < page.panels.length),
      strSub (page_panel_desc (k + 1) (page.panels.get ⟨k, hk⟩))
        (page_full_prompt page mode)) ∧
    (∀ k (panel : Panel) (dlg : String), panel.dialogue = some dlg → dlg ≠ "" →
      page_panel_desc k panel =
        "Panel " ++ toString k ++ ": " ++ panel.visual_prompt ++
          " (Dialogue: " ++ dlg ++ ")") ∧
    (∀ k (panel : Panel), (panel.dialogue = none ∨ panel.dialogue = some "") →
      page_panel_desc k panel =
        "Panel " ++ toString k ++ ": " ++ panel.visual_prompt) ∧
    strSub (page_prompt_tail mode) (page_full_prompt page mode) := by
  refine ⟨?_, ?_, ?_, ?_, ?_⟩
  · exact ⟨page_prompt_head mode ++ "Page layout: ",
      ". " ++ joinSpace (page.panels.enum.map
        (fun ip => page_panel_desc (ip.1 + 1) ip.2)) ++ ". " ++ page_prompt_tail mode,
      by simp [page_full_prompt, String.append_assoc]⟩
  · intro k hk
    have hmem : (k, page.panels.get ⟨k, hk⟩) ∈ page.panels.enum := by
      have := mem_enumFrom page.panels 0 k hk
      simpa [List.enum] using this
    have hmem2 : page_panel_desc (k + 1) (page.panels.get ⟨k, hk⟩) ∈
        page.panels.enum.map (fun ip => page_panel_desc (ip.1 + 1) ip.2) :=
      List.mem_map_of_mem _ hmem
    refine strSub_trans (strSub_joinSpace _ _ hmem2) ?_
    exact ⟨page_prompt_head mode ++ "Page layout: " ++ page.layout_desc ++ ". ",
      ". " ++ page_prompt_tail mode,
      by simp [page_full_prompt, String.append_assoc]⟩
  · intro k panel dlg hd hne
    simp [page_panel_desc, hd, hne]
  · intro k panel hd
    rcases hd with hd | hd <;> simp [page_panel_desc, hd]
  · exact ⟨page_prompt_head mode ++ "Page layout: " ++ page.layout_desc ++ ". " ++
      joinSpace (page.panels.enum.map
        (fun ip => page_panel_desc (ip.1 + 1) ip.2)) ++ ". ", "",
      by simp [page_full_prompt, String.append_assoc, String.append_empty]⟩

/-- C5 witness: for a concrete one-panel page with non-empty dialogue, the
panel line (with its parenthesised dialogue) occurs in the page prompt. -/
theorem page_prompt_composition_inst :
    strSub (page_panel_desc 1 (Panel.mk 1 "d" "vp" (some "hi")))
      (page_full_prompt (Page.mk 1 "L" [Panel.mk 1 "d" "vp" (some "hi")])
        ColorMode.COLOR) := by
  have h := (page_prompt_composition
    (Page.mk 1 "L" [Panel.mk 1 "d" "vp" (some "hi")]) ColorMode.COLOR).2.1 0
    (by decide)
  exact h

/-- C6: for a fixed panel and page, the color strategy versus the
monochrome strategy produce different prompt text for the image-generation
call, in both panel-first and page-first modes, while the panel and page
data are left unmodified by the render operations. -/
theorem color_mode_changes_prompt_only (panel : Panel) (page : Page)
    (refs : List (String × Img)) (config : MangaConfig) (gen : Gen) :
    panel_full_prompt panel ColorMode.COLOR ≠
      panel_full_prompt panel ColorMode.MONOCHROME ∧
    page_full_prompt page ColorMode.COLOR ≠
      page_full_prompt page ColorMode.MONOCHROME ∧
    (generate_panel_image panel refs config gen).2 = panel ∧
    (generate_page_image page refs config gen).2 = page := by
  refine ⟨?_, ?_, rfl, rfl⟩
  · intro h
    have hlen := congrArg String.length h
    simp only [panel_full_prompt, String.length_append] at hlen
    have h1 : (style_suffix ColorMode.COLOR).length = 97 := by decide
    have h2 : (style_suffix ColorMode.MONOCHROME).length = 126 := by decide
    omega
  · intro h
    have hlen := congrArg String.length h
    simp only [page_full_prompt, String.length_append] at hlen
    have h1 : (page_prompt_head ColorMode.COLOR).length = 66 := by decide
    have h2 : (page_prompt_head ColorMode.MONOCHROME).length = 67 := by decide
    have h3 : (page_prompt_tail ColorMode.COLOR).length = 82 := by decide
    have h4 : (page_prompt_tail ColorMode.MONOCHROME).length = 110 := by decide
    omega

/-- C6 witness: a concrete panel and page with the two color strategies. -/
theorem color_mode_changes_prompt_only_inst :
    panel_full_prompt (Panel.mk 1 "d" "vp" none) ColorMode.COLOR ≠
      panel_full_prompt (Panel.mk 1 "d" "vp" none) ColorMode.MONOCHROME ∧
    (generate_panel_image (Panel.mk 1 "d" "vp" none) [] cfgImage genAll).2 =
      Panel.mk 1 "d" "vp" none := by
  have h := color_mode_changes_prompt_only (Panel.mk 1 "d" "vp" none)
    (Page.mk 1 "L" []) [] cfgImage genAll
  exact ⟨h.1, h.2.2.1⟩

theorem charSheetLoop_eq (gen : Gen) (chars : List Character) :
    charSheetLoop gen chars =
      chars.filterMap (fun c =>
        (gen (char_sheet_prompt c.name c.visual_desc) []).map
          (fun i => (c.name, i))) := by
  induction chars with
  | nil => rfl
  | cons c rest ih =>
    simp only [charSheetLoop, List.filterMap_cons]
    cases gen (char_sheet_prompt c.name c.visual_desc) [] with
    | none => simpa using ih
    | some img => simpa using ih

theorem charSheetLoop_append (gen : Gen) (xs ys : List Character) :
    charSheetLoop gen (xs ++ ys) = charSheetLoop gen xs ++ charSheetLoop gen ys := by
  induction xs with
  | nil => rfl
  | cons c rest ih =>
    simp only [List.cons_append, charSheetLoop]
    cases gen (char_sheet_prompt c.name c.visual_desc) [] <;> simp [ih]

theorem charSheetLoop_congr (gen gen' : Gen) (chars : List Character)
    (h : ∀ c ∈ chars, gen' (char_sheet_prompt c.name c.visual_desc) [] =
      gen (char_sheet_prompt c.name c.visual_desc) []) :
    charSheetLoop gen' chars = charSheetLoop gen chars := by
  induction chars with
  | nil => rfl
  | cons c rest ih =>
    simp only [charSheetLoop]
    rw [h c (by simp)]
    cases gen (char_sheet_prompt c.name c.visual_desc) [] <;>
      simp [ih (fun c' hc' => h c' (by simp [hc']))]

/-- C7 counterexample: the character-sheet prompt the code synthesizes for
a concrete character differs from the fixed template stated in the claim
(the code inserts "Character" at the front and the extra clauses
"character design" and "professional anime character sheet, detailed line
art"). -/
theorem char_sheet_template_not_claimed :
    char_sheet_prompt "A" "B" ≠
      "reference sheet, multiple views, A, B, manga style, turnaround, white background" := by
  decide

/-- C7 (amended: the fixed prompt template is "Character reference sheet,
multiple views, NAME, DESC, manga style, character design, turnaround,
white background, professional anime character sheet, detailed line art",
not the shorter template of the claim; the rest of the claim holds): in
image-based mode, each character yields exactly one image-generation call
with that prompt and an empty reference-image list, and the character list
is left unmodified. -/
theorem char_sheet_template (chars : List Character) (config : MangaConfig)
    (gen : Gen) (h : config.char_ref_mode = CharRefMode.IMAGE_INPUT) :
    (generate_character_sheets chars config gen).1 =
      chars.filterMap (fun c =>
        (gen (char_sheet_prompt c.name c.visual_desc) []).map
          (fun i => (c.name, i))) ∧
    (generate_character_sheets chars config gen).2 = chars := by
  unfold generate_character_sheets
  rw [if_neg (by simp [h])]
  exact ⟨charSheetLoop_eq gen chars, rfl⟩

/-- C7 witness: a concrete single-character run in image-based mode. -/
theorem char_sheet_template_inst :
    (generate_character_sheets [Character.mk "A" "B"] cfgImage genAll).1 =
      [("A", sampleImg)] ∧
    (generate_character_sheets [Character.mk "A" "B"] cfgImage genAll).2 =
      [Character.mk "A" "B"] := by
  have h := char_sheet_template [Character.mk "A" "B"] cfgImage genAll rfl
  refine ⟨?_, h.2⟩
  rw [h.1]
  rfl

/-- C8: a character-sheet generation failure for one character removes only
that character's entry: the reference map of the failing run equals the
maps of the surrounding characters computed without the failure,
concatenated (the baseline map being those two parts with the failed
character's entry in between), and the character list - hence the plan -
is left unmodified. -/
theorem char_sheet_failure_isolated (pre post : List Character) (c : Character)
    (config : MangaConfig) (gen gen' : Gen)
    (hmode : config.char_ref_mode = CharRefMode.IMAGE_INPUT)
    (hagree : ∀ prompt refs, prompt ≠ char_sheet_prompt c.name c.visual_desc →
      gen' prompt refs = gen prompt refs)
    (hfail : gen' (char_sheet_prompt c.name c.visual_desc) [] = none)
    (hdistinct : ∀ c' ∈ pre ++ post,
      char_sheet_prompt c'.name c'.visual_desc ≠
        char_sheet_prompt c.name c.visual_desc) :
    (generate_character_sheets (pre ++ c :: post) config gen').1 =
      (generate_character_sheets pre config gen).1 ++
        (generate_character_sheets post config gen).1 ∧
    (generate_character_sheets (pre ++ c :: post) config gen).1 =
      (generate_character_sheets pre config gen).1 ++
        ((gen (char_sheet_prompt c.name c.visual_desc) []).map
          (fun i => (c.name, i))).toList ++
        (generate_character_sheets post config gen).1 ∧
    (generate_character_sheets (pre ++ c :: post) config gen').2 =
      pre ++ c :: post := by
  have hnottext : ¬ config.char_ref_mode = CharRefMode.TEXT_ONLY := by simp [hmode]
  unfold generate_character_sheets
  simp only [if_neg hnottext]
  have hpre : charSheetLoop gen' pre = charSheetLoop gen pre :=
    charSheetLoop_congr gen gen' pre
      (fun c' hc' => hagree _ _ (hdistinct c' (by simp [hc'])))
  have hpost : charSheetLoop gen' post = charSheetLoop gen post :=
    charSheetLoop_congr gen gen' post
      (fun c' hc' => hagree _ _ (hdistinct c' (by simp [hc'])))
  refine ⟨?_, ?_, by trivial⟩
  · rw [show pre ++ c :: post = pre ++ [c] ++ post by simp,
      charSheetLoop_append, charSheetLoop_append]
    rw [hpre, hpost]
    have hc : charSheetLoop gen' [c] = [] := by
      simp only [charSheetLoop, hfail]
    rw [hc]
    simp
  · rw [show pre ++ c :: post = pre ++ [c] ++ post by simp,
      charSheetLoop_append, charSheetLoop_append]
    have hc : charSheetLoop gen [c] =
        ((gen (char_sheet_prompt c.name c.visual_desc) []).map
          (fun i => (c.name, i))).toList := by
      simp only [charSheetLoop]
      cases gen (char_sheet_prompt c.name c.visual_desc) [] <;> rfl
    rw [hc]

/-- C8 witness: a concrete three-character run in which the middle
character's sheet generation fails; only that entry is missing. -/
theorem char_sheet_failure_isolated_inst :
    (generate_character_sheets [Character.mk "P" "p", Character.mk "C" "c",
        Character.mk "Q" "q"] cfgImage genFailC).1 =
      [("P", sampleImg), ("Q", sampleImg)] := by
  have h := char_sheet_failure_isolated [Character.mk "P" "p"]
    [Character.mk "Q" "q"] (Character.mk "C" "c") cfgImage genAll genFailC
    rfl
    (fun prompt refs hne => by simp [genFailC, genAll, if_neg hne])
    (by simp [genFailC])
    (by decide)
  have h1 := h.1
  simp only [List.cons_append, List.nil_append] at h1
  rw [h1]
  rfl

end MangaGen
